import Mathlib

/-!
Verification of the PayTrack2 bill-tracking core: a shallow embedding of the
recurrence engine (`src/utils/billUtils.ts`), the notification planner
(`src/services/NotificationService.ts`), and the bill store / sync coordinator
(`src/contexts/BillContext.tsx`), together with theorems settling the claims
about them.
-/

/-- Calendar date plus wall-clock time of day, mirroring a JavaScript `Date`:
`year`/`month`/`day` are the civil fields (month 1..12, day 1..31) and
`msOfDay` the milliseconds since local midnight.  Chronological comparison of
JS `Date` timestamps corresponds to lexicographic comparison of these fields
for calendar-valid values. -/
structure DateTime where
  year : Int
  month : Int
  day : Int
  msOfDay : Int
deriving DecidableEq, Repr

/-- Strict chronological order on `DateTime`, the model of timestamp
comparison (`a.getTime() < b.getTime()`, what date-fns `isBefore`/`isAfter`
test). -/
def dlt (a b : DateTime) : Prop :=
  a.year < b.year ∨ (a.year = b.year ∧ (a.month < b.month ∨ (a.month = b.month ∧
    (a.day < b.day ∨ (a.day = b.day ∧ a.msOfDay < b.msOfDay)))))

instance (a b : DateTime) : Decidable (dlt a b) := by
  unfold dlt; exact inferInstance

/-- Strict order on the calendar-date part only (ignoring time of day). -/
def ddlt (a b : DateTime) : Prop :=
  a.year < b.year ∨ (a.year = b.year ∧ (a.month < b.month ∨ (a.month = b.month ∧
    a.day < b.day)))

instance (a b : DateTime) : Decidable (ddlt a b) := by
  unfold ddlt; exact inferInstance

/-- Same calendar day, the model of date-fns `isSameDay` / `isToday` (which
compare year, month and day-of-month, not timestamps). -/
def sameDate (a b : DateTime) : Prop :=
  a.year = b.year ∧ a.month = b.month ∧ a.day = b.day

instance (a b : DateTime) : Decidable (sameDate a b) := by
  unfold sameDate; exact inferInstance

/-- date-fns `isBefore(a, b)`: strict timestamp comparison. -/
def isBefore (a b : DateTime) : Bool := decide (dlt a b)

/-- date-fns `isAfter(a, b)`: strict timestamp comparison. -/
def isAfter (a b : DateTime) : Bool := decide (dlt b a)

/-- date-fns `isPast(d)` relative to an explicit current time `now`:
`d.getTime() < Date.now()`. -/
def isPast (d now : DateTime) : Bool := decide (dlt d now)

/-- date-fns `isToday(d)` relative to an explicit current time `now`:
same calendar day as today. -/
def isToday (d now : DateTime) : Bool := decide (sameDate d now)

/-- Gregorian leap-year rule (as used by JS `Date`). -/
def isLeapYear (y : Int) : Bool := (y % 4 == 0 && y % 100 != 0) || y % 400 == 0

/-- Number of days in a month of the Gregorian calendar (JS `Date`
semantics). -/
def daysInMonth (y m : Int) : Int :=
  if m = 2 then (if isLeapYear y then 29 else 28)
  else if m = 4 ∨ m = 6 ∨ m = 9 ∨ m = 11 then 30
  else 31

/-- The next calendar day (rolling over month and year ends), preserving the
time of day. -/
def succDay (t : DateTime) : DateTime :=
  if t.day < daysInMonth t.year t.month then { t with day := t.day + 1 }
  else if t.month < 12 then { t with month := t.month + 1, day := 1 }
  else { year := t.year + 1, month := 1, day := 1, msOfDay := t.msOfDay }

/-- date-fns `addDays(t, n)` for a non-negative amount: advance the calendar
date by `n` days, keeping the time of day. -/
def addDays (t : DateTime) : Nat → DateTime
  | 0 => t
  | n + 1 => succDay (addDays t n)

/-- date-fns `addWeeks(t, n)` = `addDays(t, 7 n)`. -/
def addWeeks (t : DateTime) (n : Nat) : DateTime := addDays t (7 * n)

/-- date-fns `addMonths(t, n)`: move to month `month + n` (normalizing into
year/month), clamping the day of month to the length of the target month,
keeping the time of day. -/
def addMonths (t : DateTime) (n : Nat) : DateTime :=
  { year := t.year + (t.month - 1 + n) / 12,
    month := (t.month - 1 + n) % 12 + 1,
    day := min t.day
      (daysInMonth (t.year + (t.month - 1 + n) / 12) ((t.month - 1 + n) % 12 + 1)),
    msOfDay := t.msOfDay }

/-- date-fns `addYears(t, n)` = `addMonths(t, 12 n)`. -/
def addYears (t : DateTime) (n : Nat) : DateTime := addMonths t (12 * n)

/-- Add `ms` milliseconds (non-negative in all uses) to a timestamp: date-fns
`addMilliseconds`, expressed on the civil representation by normalizing the
time of day and carrying whole days. -/
def addMs (t : DateTime) (ms : Int) : DateTime :=
  addDays { t with msOfDay := (t.msOfDay + ms) % 86400000 }
    ((t.msOfDay + ms) / 86400000).toNat

/-- date-fns `addHours(t, h)` = add `h * 3600000` milliseconds. -/
def addHours (t : DateTime) (h : Nat) : DateTime := addMs t ((h : Int) * 3600000)

/-- Bill recurrence frequencies (`Bill['frequency']` in
`src/contexts/BillContext.tsx`). -/
inductive Frequency where
  | oneTime
  | daily
  | weekly
  | biWeekly
  | every3Weeks
  | every4Weeks
  | every5Weeks
  | every6Weeks
  | monthly
  | every3Months
  | every4Months
  | every5Months
  | every6Months
  | annually
deriving DecidableEq, Repr

/-- A bill (`Bill` in `src/contexts/BillContext.tsx`).  The `"HH:MM"`
`notificationTime` string is represented by its two parsed numeric components
`notifHours`/`notifMinutes` (the only way the source consumes it, via
`split(':').map(Number)`). -/
structure Bill where
  id : String
  name : String
  amount : Int
  frequency : Frequency
  nextDueDate : DateTime
  notifHours : Int
  notifMinutes : Int
  note : String
  autoMarkPaid : Bool
  notifyUntilPaid : Bool
  isPaid : Bool
  category : Option String
deriving DecidableEq, Repr

/-- `getNextDueDate` from `src/utils/billUtils.ts`: advance a due date by one
recurrence period. -/
def getNextDueDate (currentDate : DateTime) (frequency : Frequency) : DateTime :=
  match frequency with
  | .oneTime => currentDate
  | .daily => addDays currentDate 1
  | .weekly => addWeeks currentDate 1
  | .biWeekly => addWeeks currentDate 2
  | .every3Weeks => addWeeks currentDate 3
  | .every4Weeks => addWeeks currentDate 4
  | .every5Weeks => addWeeks currentDate 5
  | .every6Weeks => addWeeks currentDate 6
  | .monthly => addMonths currentDate 1
  | .every3Months => addMonths currentDate 3
  | .every4Months => addMonths currentDate 4
  | .every5Months => addMonths currentDate 5
  | .every6Months => addMonths currentDate 6
  | .annually => addYears currentDate 1

/-- Status of a bill as displayed (`getBillStatus` in
`src/utils/billUtils.ts`). -/
inductive BillStatus where
  | overdue
  | paid
  | upcoming
deriving DecidableEq, Repr

/-- `getBillStatus` from `src/utils/billUtils.ts`, with the implicit
`new Date()` made an explicit `now` parameter. -/
def getBillStatus (bill : Bill) (now : DateTime) : BillStatus :=
  if bill.isPaid then .paid
  else if isBefore bill.nextDueDate now && !(isToday bill.nextDueDate now) then .overdue
  else .upcoming

/-- Dashboard view windows accepted by `filterBillsByDateRange`. -/
inductive View where
  | week
  | days14
  | month
  | year
  | all
deriving DecidableEq, Repr

/-- The end of a view window (`endDate` in `filterBillsByDateRange`). -/
def viewEndDate (view : View) (now : DateTime) : DateTime :=
  match view with
  | .week => addDays now 7
  | .days14 => addDays now 14
  | .month => addMonths now 1
  | .year => addYears now 1
  | .all => now

/-- `filterBillsByDateRange` from `src/utils/billUtils.ts`, with the implicit
`new Date()` made an explicit `now` parameter. -/
def filterBillsByDateRange (bills : List Bill) (view : View) (now : DateTime) : List Bill :=
  if view = View.all then bills
  else bills.filter (fun bill =>
    isBefore bill.nextDueDate (viewEndDate view now) || isToday bill.nextDueDate now)

-- ### Notification planner (`src/services/NotificationService.ts`)

/-- `generateNotificationId` from `NotificationService`: sum of the character
codes of the bill id, reduced mod 1,000,000, plus the suffix.  (`charCodeAt`
returns UTF-16 code units; `Char.toNat` agrees with it on the BMP strings used
as bill ids.) -/
def generateNotificationId (billId : String) (suffix : Nat) : Nat :=
  (billId.data.map Char.toNat).foldl (fun acc c => acc + c) 0 % 1000000 + suffix

/-- `parseNotificationTime` from `NotificationService`: copy the base date and
`setHours(hours, minutes, 0, 0)`, i.e. keep the calendar day and replace the
time of day. -/
def parseNotificationTime (hours minutes : Int) (baseDate : DateTime) : DateTime :=
  { baseDate with msOfDay := (hours * 60 + minutes) * 60000 }

/-- The data interpolated into a notification body template, keeping exactly
the varying parts the source interpolates; in the catch-up and recurring
variants the `overdue` flag records which side of the
`isPast(dueDate) ? 'OVERDUE' : 'due today'` (resp. `'is OVERDUE'` / `'due …'`)
branch produced the message. -/
inductive NotifBody where
  | mainBody (name : String) (amount : Int) (due : DateTime)
  | catchUpBody (name : String) (amount : Int) (overdue : Bool)
  | recurringBody (name : String) (amount : Int) (overdue : Bool) (due : DateTime)
deriving DecidableEq, Repr

/-- One scheduled local notification, as passed to
`LocalNotifications.schedule`: numeric id, fire time (`schedule.at`), title,
body, and the `extra` payload fields (`billId`, `type`, `interval`). -/
structure Notif where
  id : Nat
  fireAt : DateTime
  title : String
  body : NotifBody
  billId : String
  ntype : String
  interval : Option Nat
deriving DecidableEq, Repr

/-- The `main` notification pushed by `scheduleBillReminder` when the target
time is still in the future. -/
def mkMainNotif (bill : Bill) (fireAt : DateTime) : Notif :=
  { id := generateNotificationId bill.id 0,
    fireAt := fireAt,
    title := "💰 Bill Reminder",
    body := .mainBody bill.name bill.amount bill.nextDueDate,
    billId := bill.id,
    ntype := "main",
    interval := none }

/-- The immediate (catch-up) notification pushed when the target time has
passed: fires at `addMinutes(now, 0.1)` (six seconds after `now`, per the
source comment), and its body takes the `OVERDUE` branch exactly when
`isPast(dueDate)`. -/
def mkCatchUpNotif (bill : Bill) (now : DateTime) : Notif :=
  { id := generateNotificationId bill.id 0,
    fireAt := addMs now 6000,
    title := "⚠️ Bill Reminder",
    body := .catchUpBody bill.name bill.amount (isPast bill.nextDueDate now),
    billId := bill.id,
    ntype := "main",
    interval := none }

/-- The `i`-th recurring two-hour reminder (`i` ranges over 1..12), firing at
`addHours(now, i * 2)`. -/
def mkRecurringNotif (bill : Bill) (now : DateTime) (i : Nat) : Notif :=
  { id := generateNotificationId bill.id i,
    fireAt := addHours now (2 * i),
    title := "🔔 Bill Reminder",
    body := .recurringBody bill.name bill.amount (isPast bill.nextDueDate now) bill.nextDueDate,
    billId := bill.id,
    ntype := "recurring",
    interval := some i }

/-- The list of notification instances `scheduleBillReminder` builds for one
bill at planning time `now` (the pure content of the `notifications` array:
early return for a paid bill; one main instance if the target time is after
`now`, else one immediate catch-up instance; then, if `notifyUntilPaid`, the
two-hour reminders for `i = 1..12`, each guarded by
`isAfter(reminderTime, now)`). -/
def scheduleBillReminderPlan (bill : Bill) (now : DateTime) : List Notif :=
  if bill.isPaid then []
  else
    (if isAfter (parseNotificationTime bill.notifHours bill.notifMinutes bill.nextDueDate) now
     then mkMainNotif bill (parseNotificationTime bill.notifHours bill.notifMinutes bill.nextDueDate)
     else mkCatchUpNotif bill now)
    :: (if bill.notifyUntilPaid && !bill.isPaid then
          (List.range 12).filterMap (fun j =>
            if isAfter (addHours now (2 * (j + 1))) now
            then some (mkRecurringNotif bill now (j + 1))
            else none)
        else [])

/-- Modelled from the spec: "the start of today" for a current time `now` —
used only to state the original C3 claim's overdue condition ("target strictly
before the start of the current day"); the source never computes this value. -/
def specStartOfToday (now : DateTime) : DateTime :=
  { now with msOfDay := 0 }

/-- Modelled from the spec: "the number of 2-hour multiples strictly after
`now` within the next 24 hours" (the 2-hour multiples within the next 24 hours
being `now + 2h, now + 4h, …, now + 24h`). -/
def specRecurringSlots (now : DateTime) : Nat :=
  ((List.range 12).filter (fun j => isAfter (addHours now (2 * (j + 1))) now)).length

-- ### Device pending-notification state (`LocalNotifications` gateway)

/-- `cancelBillReminder`: drop every pending notification whose
`extra.billId` matches. -/
def cancelBillReminderState (pending : List Notif) (billId : String) : List Notif :=
  pending.filter (fun n => !(n.billId == billId))

/-- `LocalNotifications.schedule`: add the new instances; a new instance whose
id collides with a pending one replaces it (OS semantics). -/
def scheduleNotifsState (pending : List Notif) (news : List Notif) : List Notif :=
  pending.filter (fun n => news.all (fun m => !(m.id == n.id))) ++ news

/-- `scheduleBillReminder`, as a transformer of the device pending set:
return unchanged for a paid bill; otherwise cancel the bill's pending
instances, then schedule the freshly planned ones (the source skips the
`schedule` call when the plan is empty). -/
def scheduleBillReminderState (pending : List Notif) (bill : Bill) (now : DateTime) :
    List Notif :=
  if bill.isPaid then pending
  else
    let afterCancel := cancelBillReminderState pending bill.id
    let plan := scheduleBillReminderPlan bill now
    if 0 < plan.length then scheduleNotifsState afterCancel plan else afterCancel

/-- `scheduleAllBills`, as a transformer of the device pending set: cancel
every pending notification, then run `scheduleBillReminder` for each unpaid
bill in order. -/
def scheduleAllBills (_pending : List Notif) (bills : List Bill) (now : DateTime) :
    List Notif :=
  bills.foldl (fun p bill => if bill.isPaid then p else scheduleBillReminderState p bill now) []

-- ### Bill store and sync coordinator (`src/contexts/BillContext.tsx`)

/-- `UserSettings` from `BillContext`. -/
structure UserSettings where
  currency : String
  displayCurrency : Option String
  monthlyIncome : Option Int
  syncEnabled : Bool
deriving DecidableEq, Repr

/-- A `Partial<UserSettings>` argument to `updateSettings` (a field is `none`
when absent from the partial object). -/
structure SettingsPatch where
  currency : Option String := none
  displayCurrency : Option String := none
  monthlyIncome : Option Int := none
  syncEnabled : Option Bool := none
deriving DecidableEq, Repr

/-- `{ ...settings, ...newSettings }`. -/
def applySettingsPatch (s : UserSettings) (p : SettingsPatch) : UserSettings :=
  { currency := p.currency.getD s.currency,
    displayCurrency := match p.displayCurrency with
      | some v => some v
      | none => s.displayCurrency,
    monthlyIncome := match p.monthlyIncome with
      | some v => some v
      | none => s.monthlyIncome,
    syncEnabled := p.syncEnabled.getD s.syncEnabled }

/-- A `Partial<Bill>` argument to `updateBill` (a field is `none` when absent,
mirroring the `!== undefined` checks that build `updateData`). -/
structure BillPatch where
  name : Option String := none
  amount : Option Int := none
  frequency : Option Frequency := none
  nextDueDate : Option DateTime := none
  notifHours : Option Int := none
  notifMinutes : Option Int := none
  note : Option String := none
  autoMarkPaid : Option Bool := none
  notifyUntilPaid : Option Bool := none
  isPaid : Option Bool := none
  category : Option String := none
deriving DecidableEq, Repr

/-- `{ ...bill, ...updatedBill }`. -/
def applyBillPatch (b : Bill) (p : BillPatch) : Bill :=
  { id := b.id,
    name := p.name.getD b.name,
    amount := p.amount.getD b.amount,
    frequency := p.frequency.getD b.frequency,
    nextDueDate := p.nextDueDate.getD b.nextDueDate,
    notifHours := p.notifHours.getD b.notifHours,
    notifMinutes := p.notifMinutes.getD b.notifMinutes,
    note := p.note.getD b.note,
    autoMarkPaid := p.autoMarkPaid.getD b.autoMarkPaid,
    notifyUntilPaid := p.notifyUntilPaid.getD b.notifyUntilPaid,
    isPaid := p.isPaid.getD b.isPaid,
    category := match p.category with
      | some v => some v
      | none => b.category }

/-- A row of the remote `bills` table (columns of the supabase insert in
`addBill`/`syncLocalDataToCloud`). -/
structure CloudBillRow where
  userId : String
  id : String
  name : String
  amount : Int
  baseCurrency : String
  frequency : Frequency
  nextDueDate : DateTime
  notifHours : Int
  notifMinutes : Int
  note : String
  autoMarkPaid : Bool
  notifyUntilPaid : Bool
  isPaid : Bool
  category : Option String
deriving DecidableEq, Repr

/-- The row of the remote `user_settings` table for one owner. -/
structure CloudSettingsRow where
  userId : String
  baseCurrency : String
  displayCurrency : Option String
  monthlyIncome : Option Int
deriving DecidableEq, Repr

/-- Apply a bill `updateData` object to a remote row (only the provided
fields; `updateBill` never touches `base_currency`). -/
def applyRowPatch (r : CloudBillRow) (p : BillPatch) : CloudBillRow :=
  { r with
    name := p.name.getD r.name,
    amount := p.amount.getD r.amount,
    frequency := p.frequency.getD r.frequency,
    nextDueDate := p.nextDueDate.getD r.nextDueDate,
    notifHours := p.notifHours.getD r.notifHours,
    notifMinutes := p.notifMinutes.getD r.notifMinutes,
    note := p.note.getD r.note,
    autoMarkPaid := p.autoMarkPaid.getD r.autoMarkPaid,
    notifyUntilPaid := p.notifyUntilPaid.getD r.notifyUntilPaid,
    isPaid := p.isPaid.getD r.isPaid,
    category := match p.category with
      | some v => some v
      | none => r.category }

/-- Apply a settings `updateData` object to a remote settings row (only
`base_currency`, `display_currency` and `monthly_income` are mapped). -/
def applySettingsRowPatch (r : CloudSettingsRow) (p : SettingsPatch) : CloudSettingsRow :=
  { r with
    baseCurrency := p.currency.getD r.baseCurrency,
    displayCurrency := match p.displayCurrency with
      | some v => some v
      | none => r.displayCurrency,
    monthlyIncome := match p.monthlyIncome with
      | some v => some v
      | none => r.monthlyIncome }

/-- Combined state touched by `BillContext`: React in-memory state (`bills`,
`settings`), the two `localStorage` keys (`none` = key absent), and the remote
store tables. -/
structure Sys where
  memBills : List Bill
  memSettings : UserSettings
  localBills : Option (List Bill)
  localSettings : Option UserSettings
  cloudBills : List CloudBillRow
  cloudSettings : Option CloudSettingsRow
deriving DecidableEq, Repr

/-- Environment of one `BillContext` operation: session state, whether the
backing write fails, and the fresh id the persisting store would assign
(`data.id` from the cloud insert, `Date.now().toString()` locally). -/
structure Env where
  signedIn : Bool
  userId : String
  remoteFails : Bool
  localFails : Bool
  freshId : String
deriving DecidableEq, Repr

/-- Outcome the caller of a `BillContext` operation observes: the returned
promise either resolves (`ok`) or rejects with the thrown error (`failed`). -/
inductive OpResult where
  | ok
  | failed
deriving DecidableEq, Repr

/-- The fields of `Omit<Bill, 'id'>` passed to `addBill`. -/
structure BillInput where
  name : String
  amount : Int
  frequency : Frequency
  nextDueDate : DateTime
  notifHours : Int
  notifMinutes : Int
  note : String
  autoMarkPaid : Bool
  notifyUntilPaid : Bool
  isPaid : Bool
  category : Option String
deriving DecidableEq, Repr

/-- Build a `Bill` from an input and an assigned id. -/
def mkBillFromInput (id : String) (i : BillInput) : Bill :=
  { id := id,
    name := i.name,
    amount := i.amount,
    frequency := i.frequency,
    nextDueDate := i.nextDueDate,
    notifHours := i.notifHours,
    notifMinutes := i.notifMinutes,
    note := i.note,
    autoMarkPaid := i.autoMarkPaid,
    notifyUntilPaid := i.notifyUntilPaid,
    isPaid := i.isPaid,
    category := i.category }

/-- The remote row the cloud insert in `addBill` creates (`base_currency`
comes from the in-memory settings). -/
def mkCloudRow (userId id baseCurrency : String) (i : BillInput) : CloudBillRow :=
  { userId := userId,
    id := id,
    name := i.name,
    amount := i.amount,
    baseCurrency := baseCurrency,
    frequency := i.frequency,
    nextDueDate := i.nextDueDate,
    notifHours := i.notifHours,
    notifMinutes := i.notifMinutes,
    note := i.note,
    autoMarkPaid := i.autoMarkPaid,
    notifyUntilPaid := i.notifyUntilPaid,
    isPaid := i.isPaid,
    category := i.category }

/-- The `Bill` mapped back from a freshly inserted remote row in `addBill`. -/
def billOfRow (r : CloudBillRow) : Bill :=
  { id := r.id,
    name := r.name,
    amount := r.amount,
    frequency := r.frequency,
    nextDueDate := r.nextDueDate,
    notifHours := r.notifHours,
    notifMinutes := r.notifMinutes,
    note := r.note,
    autoMarkPaid := r.autoMarkPaid,
    notifyUntilPaid := r.notifyUntilPaid,
    isPaid := r.isPaid,
    category := r.category }

/-- `addBill`: signed in, insert into the cloud first (a failing insert throws
before any in-memory change), then append the mapped-back bill to memory;
signed out, build the bill locally, update memory, then write both
`localStorage` keys (`saveToLocalStorage`) — a failing local write throws
after memory was already updated. -/
def addBill (env : Env) (s : Sys) (input : BillInput) : Sys × OpResult :=
  if env.signedIn then
    if env.remoteFails then (s, .failed)
    else
      ({ s with
          cloudBills := s.cloudBills ++ [mkCloudRow env.userId env.freshId s.memSettings.currency input],
          memBills := s.memBills ++ [billOfRow (mkCloudRow env.userId env.freshId s.memSettings.currency input)] },
       .ok)
  else
    if env.localFails then
      ({ s with memBills := s.memBills ++ [mkBillFromInput env.freshId input] }, .failed)
    else
      ({ s with
          memBills := s.memBills ++ [mkBillFromInput env.freshId input],
          localBills := some (s.memBills ++ [mkBillFromInput env.freshId input]),
          localSettings := some s.memSettings },
       .ok)

/-- `updateBill`: signed in, update the cloud row first (a failing update
throws before any in-memory change), then map the patch over the in-memory
list (`saveToLocalStorage` is a no-op while signed in); signed out, map the
patch over memory and then write both `localStorage` keys. -/
def updateBill (env : Env) (s : Sys) (id : String) (p : BillPatch) : Sys × OpResult :=
  if env.signedIn then
    if env.remoteFails then (s, .failed)
    else
      ({ s with
          cloudBills := s.cloudBills.map (fun r => if r.id == id then applyRowPatch r p else r),
          memBills := s.memBills.map (fun b => if b.id == id then applyBillPatch b p else b) },
       .ok)
  else
    if env.localFails then
      ({ s with memBills := s.memBills.map (fun b => if b.id == id then applyBillPatch b p else b) },
       .failed)
    else
      ({ s with
          memBills := s.memBills.map (fun b => if b.id == id then applyBillPatch b p else b),
          localBills := some (s.memBills.map (fun b => if b.id == id then applyBillPatch b p else b)),
          localSettings := some s.memSettings },
       .ok)

/-- `deleteBill`: same shape as `updateBill`, with a filter instead of a
map. -/
def deleteBill (env : Env) (s : Sys) (id : String) : Sys × OpResult :=
  if env.signedIn then
    if env.remoteFails then (s, .failed)
    else
      ({ s with
          cloudBills := s.cloudBills.filter (fun r => !(r.id == id)),
          memBills := s.memBills.filter (fun b => !(b.id == id)) },
       .ok)
  else
    if env.localFails then
      ({ s with memBills := s.memBills.filter (fun b => !(b.id == id)) }, .failed)
    else
      ({ s with
          memBills := s.memBills.filter (fun b => !(b.id == id)),
          localBills := some (s.memBills.filter (fun b => !(b.id == id))),
          localSettings := some s.memSettings },
       .ok)

/-- `markAsPaid`: look the bill up; silently resolve if absent; otherwise
`updateBill(id, { isPaid: true })` (the subsequent "bill paid" gateway
notification does not touch this state). -/
def markAsPaid (env : Env) (s : Sys) (id : String) : Sys × OpResult :=
  match s.memBills.find? (fun b => b.id == id) with
  | none => (s, .ok)
  | some _ => updateBill env s id { isPaid := some true }

/-- `updateSettings`: merge into in-memory settings FIRST; then, signed in,
attempt the cloud update whose error is only logged (the promise still
resolves); signed out, write both `localStorage` keys — a failing local write
throws after memory was already updated. -/
def updateSettings (env : Env) (s : Sys) (p : SettingsPatch) : Sys × OpResult :=
  if env.signedIn then
    if env.remoteFails then
      ({ s with memSettings := applySettingsPatch s.memSettings p }, .ok)
    else
      ({ s with
          memSettings := applySettingsPatch s.memSettings p,
          cloudSettings := s.cloudSettings.map (fun r =>
            if r.userId == env.userId then applySettingsRowPatch r p else r) },
       .ok)
  else
    if env.localFails then
      ({ s with memSettings := applySettingsPatch s.memSettings p }, .failed)
    else
      ({ s with
          memSettings := applySettingsPatch s.memSettings p,
          localBills := some s.memBills,
          localSettings := some (applySettingsPatch s.memSettings p) },
       .ok)

/-- The column values of one locally stored bill as prepared by the
`billsToSync` mapping in `syncLocalDataToCloud` (all `Bill` fields except the
local id, which is not uploaded). -/
def inputOfBill (b : Bill) : BillInput :=
  { name := b.name,
    amount := b.amount,
    frequency := b.frequency,
    nextDueDate := b.nextDueDate,
    notifHours := b.notifHours,
    notifMinutes := b.notifMinutes,
    note := b.note,
    autoMarkPaid := b.autoMarkPaid,
    notifyUntilPaid := b.notifyUntilPaid,
    isPaid := b.isPaid,
    category := b.category }

/-- The settings half of `syncLocalDataToCloud` (see `syncLocalDataToCloud`):
if a local settings blob exists, upsert it into the remote settings table
(the result is never checked by the source). -/
def syncSettingsStep (userId : String) (s : Sys) : Sys :=
  match s.localSettings with
  | some ls =>
      { s with cloudSettings := some ({ userId := userId,
                                        baseCurrency := if ls.currency = "" then "USD" else ls.currency,
                                        displayCurrency := ls.displayCurrency,
                                        monthlyIncome := ls.monthlyIncome } : CloudSettingsRow) }
  | none => s

/-- The bills half of `syncLocalDataToCloud` (see `syncLocalDataToCloud`):
`memCurrency` is the in-memory `settings.currency` captured for the
`base_currency` column. -/
def syncBillsStep (userId : String) (insertFails : Bool) (memCurrency : String) (s1 : Sys) :
    Sys :=
  match s1.localBills with
  | some bs =>
      if 0 < bs.length then
        if insertFails then s1
        else
          { s1 with
              cloudBills := s1.cloudBills ++
                bs.map (fun b => mkCloudRow userId "" memCurrency (inputOfBill b)),
              localBills := none,
              localSettings := none }
      else s1
  | none => s1

/-- `syncLocalDataToCloud` run on sign-in: if a local settings blob exists,
upsert it into the remote settings table (result unchecked); if a local bills
blob exists and is non-empty, bulk-insert the bills into the remote table
(`base_currency` from the in-memory settings) and, only if that insert
succeeded, remove both `localStorage` keys.  Remote-assigned row ids are not
modelled (nothing reads them).  All failures are caught and logged, so the
function always resolves. -/
def syncLocalDataToCloud (userId : String) (insertFails : Bool) (s : Sys) : Sys :=
  syncBillsStep userId insertFails s.memSettings.currency (syncSettingsStep userId s)

-- ### Concrete instances used by witnesses and counterexamples

/-- Default in-memory settings (`{ currency: 'USD', syncEnabled: false }`). -/
def defaultSettings : UserSettings :=
  { currency := "USD", displayCurrency := none, monthlyIncome := none, syncEnabled := false }

/-- Environment of a signed-out session whose local writes succeed. -/
def envLocalOk : Env :=
  { signedIn := false, userId := "", remoteFails := false, localFails := false,
    freshId := "1736500000000" }

/-- Environment of a signed-in session whose remote writes fail. -/
def envRemoteFail : Env :=
  { signedIn := true, userId := "u1", remoteFails := true, localFails := false,
    freshId := "c1" }

/-- A recurring (weekly) unpaid bill, for exercising `markAsPaid`. -/
def c1Bill : Bill :=
  { id := "b1", name := "Internet", amount := 30, frequency := .weekly,
    nextDueDate := ⟨2025, 1, 10, 0⟩, notifHours := 9, notifMinutes := 0,
    note := "", autoMarkPaid := false, notifyUntilPaid := false, isPaid := false,
    category := none }

/-- A signed-out state holding only `c1Bill`. -/
def c1Sys : Sys :=
  { memBills := [c1Bill], memSettings := defaultSettings,
    localBills := some [c1Bill], localSettings := some defaultSettings,
    cloudBills := [], cloudSettings := none }

/-- A signed-in state with a remote settings row. -/
def c2Sys : Sys :=
  { memBills := [], memSettings := defaultSettings,
    localBills := none, localSettings := none,
    cloudBills := [],
    cloudSettings := some ({ userId := "u1", baseCurrency := "USD",
                             displayCurrency := none, monthlyIncome := none } : CloudSettingsRow) }

/-- A settings patch switching the base currency to EUR. -/
def c2Patch : SettingsPatch := { currency := some "EUR" }

/-- A bill input for exercising `addBill`. -/
def c2Input : BillInput :=
  { name := "Gas", amount := 40, frequency := .monthly,
    nextDueDate := ⟨2025, 2, 1, 0⟩, notifHours := 8, notifMinutes := 30,
    note := "", autoMarkPaid := false, notifyUntilPaid := false, isPaid := false,
    category := none }

/-- An unpaid bill due 2025-01-30 at 08:00 with notification time 09:00. -/
def c3Bill : Bill :=
  { id := "bill-1", name := "Rent", amount := 50, frequency := .monthly,
    nextDueDate := ⟨2025, 1, 30, 28800000⟩, notifHours := 9, notifMinutes := 0,
    note := "", autoMarkPaid := false, notifyUntilPaid := false, isPaid := false,
    category := none }

/-- A current time of 2025-01-30 10:00 (same calendar day, past the target). -/
def c3Now : DateTime := ⟨2025, 1, 30, 36000000⟩

/-- A current time of 2025-01-01 00:00. -/
def c4Now : DateTime := ⟨2025, 1, 1, 0⟩

/-- A bill due exactly at `c4Now + 7` days (the week-window endpoint). -/
def c4BillAtWindowEnd : Bill :=
  { id := "w1", name := "Water", amount := 10, frequency := .weekly,
    nextDueDate := ⟨2025, 1, 8, 0⟩, notifHours := 9, notifMinutes := 0,
    note := "", autoMarkPaid := false, notifyUntilPaid := false, isPaid := false,
    category := none }

/-- A bill due earlier on the same calendar day as `c4Now`. -/
def c4TodayBill : Bill :=
  { id := "w2", name := "Power", amount := 25, frequency := .monthly,
    nextDueDate := ⟨2025, 1, 1, 3600000⟩, notifHours := 9, notifMinutes := 0,
    note := "", autoMarkPaid := false, notifyUntilPaid := false, isPaid := false,
    category := none }

/-- Three local-only bills awaiting migration. -/
def c5BillA : Bill :=
  { id := "l1", name := "Phone", amount := 15, frequency := .monthly,
    nextDueDate := ⟨2025, 2, 5, 0⟩, notifHours := 9, notifMinutes := 0,
    note := "", autoMarkPaid := false, notifyUntilPaid := false, isPaid := false,
    category := none }

/-- Second local-only bill awaiting migration. -/
def c5BillB : Bill :=
  { id := "l2", name := "Rent", amount := 900, frequency := .monthly,
    nextDueDate := ⟨2025, 2, 1, 0⟩, notifHours := 9, notifMinutes := 0,
    note := "", autoMarkPaid := false, notifyUntilPaid := false, isPaid := false,
    category := none }

/-- Third local-only bill awaiting migration. -/
def c5BillC : Bill :=
  { id := "l3", name := "Gym", amount := 20, frequency := .monthly,
    nextDueDate := ⟨2025, 2, 10, 0⟩, notifHours := 9, notifMinutes := 0,
    note := "", autoMarkPaid := false, notifyUntilPaid := false, isPaid := false,
    category := none }

/-- Sign-in state with three local-only bills and an empty remote store. -/
def c5SysW : Sys :=
  { memBills := [], memSettings := defaultSettings,
    localBills := some [c5BillA, c5BillB, c5BillC],
    localSettings := some defaultSettings,
    cloudBills := [], cloudSettings := none }

/-- Sign-in state with zero local-only bills but a local settings blob. -/
def c5Sys0 : Sys :=
  { memBills := [], memSettings := defaultSettings,
    localBills := none, localSettings := some defaultSettings,
    cloudBills := [], cloudSettings := none }

/-- An unpaid bill with the notify-until-paid policy. -/
def c6Bill : Bill :=
  { id := "bill-2", name := "Credit Card", amount := 120, frequency := .monthly,
    nextDueDate := ⟨2025, 1, 30, 32400000⟩, notifHours := 9, notifMinutes := 0,
    note := "", autoMarkPaid := false, notifyUntilPaid := true, isPaid := false,
    category := none }

/-- A planning time of 2025-01-29 15:30. -/
def c6Now : DateTime := ⟨2025, 1, 29, 55800000⟩

/-- A second planning time, for determinism of the derived ids. -/
def c7NowLater : DateTime := ⟨2025, 2, 3, 41400000⟩

/-- A paid bill whose `nextDueDate` is strictly in the past. -/
def c10Bill : Bill :=
  { id := "p1", name := "Insurance", amount := 75, frequency := .annually,
    nextDueDate := ⟨2024, 12, 1, 0⟩, notifHours := 9, notifMinutes := 0,
    note := "", autoMarkPaid := false, notifyUntilPaid := false, isPaid := true,
    category := none }

/-- A current time after `c10Bill`'s due date. -/
def c10Now : DateTime := ⟨2025, 1, 15, 43200000⟩

-- ### Order lemmas for the calendar model

theorem ddlt_trans {a b c : DateTime} (h1 : ddlt a b) (h2 : ddlt b c) : ddlt a c := by
  unfold ddlt at h1 h2 ⊢; omega

theorem dlt_of_ddlt {a b : DateTime} (h : ddlt a b) : dlt a b := by
  unfold ddlt at h; unfold dlt; omega

theorem succDay_ddlt (t : DateTime) : ddlt t (succDay t) := by
  unfold succDay ddlt
  split
  · dsimp only
    omega
  · split <;> (dsimp only; omega)

theorem succDay_msOfDay (t : DateTime) : (succDay t).msOfDay = t.msOfDay := by
  unfold succDay
  split
  · rfl
  · split <;> rfl

theorem addDays_msOfDay (t : DateTime) (n : Nat) : (addDays t n).msOfDay = t.msOfDay := by
  induction n with
  | zero => rfl
  | succ k ih =>
    show (succDay (addDays t k)).msOfDay = t.msOfDay
    rw [succDay_msOfDay, ih]

theorem addDays_ddlt (t : DateTime) (n : Nat) (h : 0 < n) : ddlt t (addDays t n) := by
  induction n with
  | zero => exact absurd h (by omega)
  | succ k ih =>
    show ddlt t (succDay (addDays t k))
    rcases Nat.eq_zero_or_pos k with hk | hk
    · subst hk
      exact succDay_ddlt t
    · exact ddlt_trans (ih hk) (succDay_ddlt _)

theorem dlt_addDays (t : DateTime) (n : Nat) (h : 0 < n) : dlt t (addDays t n) :=
  dlt_of_ddlt (addDays_ddlt t n h)

theorem dlt_addMs (t : DateTime) (ms : Int) (h : 0 < ms) : dlt t (addMs t ms) := by
  unfold addMs
  have hq := Int.ediv_add_emod (t.msOfDay + ms) 86400000
  have hr1 : 0 ≤ (t.msOfDay + ms) % 86400000 :=
    Int.emod_nonneg _ (by norm_num)
  have hr2 : (t.msOfDay + ms) % 86400000 < 86400000 :=
    Int.emod_lt_of_pos _ (by norm_num)
  rcases Nat.eq_zero_or_pos ((t.msOfDay + ms) / 86400000).toNat with h0 | h0
  · rw [h0]
    have hd : (t.msOfDay + ms) / 86400000 ≤ 0 := Int.toNat_eq_zero.mp h0
    show dlt t { t with msOfDay := (t.msOfDay + ms) % 86400000 }
    unfold dlt
    dsimp only
    omega
  · have hd := addDays_ddlt { t with msOfDay := (t.msOfDay + ms) % 86400000 } _ h0
    exact dlt_of_ddlt (show ddlt t _ from hd)

theorem dlt_addHours (t : DateTime) (h : Nat) (hh : 0 < h) : dlt t (addHours t h) := by
  unfold addHours
  exact dlt_addMs t _ (by positivity)

theorem addMonths_dlt (t : DateTime) (n : Nat) (hn : 0 < n)
    (h1 : 1 ≤ t.month) (h2 : t.month ≤ 12) : dlt t (addMonths t n) := by
  unfold addMonths dlt
  have hq := Int.ediv_add_emod (t.month - 1 + n) 12
  have hr1 : 0 ≤ (t.month - 1 + n) % 12 := Int.emod_nonneg _ (by norm_num)
  have hr2 : (t.month - 1 + n) % 12 < 12 := Int.emod_lt_of_pos _ (by norm_num)
  dsimp only
  omega

-- ### Bridging lemmas between the boolean date-fns wrappers and the orders

theorem isBefore_eq_true_iff {a b : DateTime} : isBefore a b = true ↔ dlt a b := by
  simp [isBefore]

theorem isAfter_eq_true_iff {a b : DateTime} : isAfter a b = true ↔ dlt b a := by
  simp [isAfter]

theorem isToday_eq_true_iff {a b : DateTime} : isToday a b = true ↔ sameDate a b := by
  simp [isToday]

theorem isPast_eq_true_iff {a b : DateTime} : isPast a b = true ↔ dlt a b := by
  simp [isPast]

theorem isAfter_addHours_true (now : DateTime) (h : Nat) (hh : 0 < h) :
    isAfter (addHours now h) now = true := by
  rw [isAfter_eq_true_iff]
  exact dlt_addHours now h hh

-- ### Planner shape lemmas

theorem filterMap_guard_eq_map {α β : Type} (c : α → Bool) (g : α → β) (l : List α)
    (h : ∀ a ∈ l, c a = true) :
    l.filterMap (fun a => if c a then some (g a) else none) = l.map g := by
  induction l with
  | nil => rfl
  | cons x xs ih =>
    have hx := h x (by simp)
    simp only [List.filterMap_cons, hx, if_pos, List.map_cons]
    rw [ih (fun a ha => h a (by simp [ha]))]

theorem plan_recurring_eq (bill : Bill) (now : DateTime) :
    (List.range 12).filterMap (fun j =>
        if isAfter (addHours now (2 * (j + 1))) now
        then some (mkRecurringNotif bill now (j + 1))
        else none)
      = (List.range 12).map (fun j => mkRecurringNotif bill now (j + 1)) := by
  exact filterMap_guard_eq_map _ _ _
    (fun j _ => isAfter_addHours_true now (2 * (j + 1)) (by omega))

theorem plan_eq_of_unpaid (bill : Bill) (now : DateTime) (h : bill.isPaid = false) :
    scheduleBillReminderPlan bill now =
      (if isAfter (parseNotificationTime bill.notifHours bill.notifMinutes bill.nextDueDate) now
       then mkMainNotif bill (parseNotificationTime bill.notifHours bill.notifMinutes bill.nextDueDate)
       else mkCatchUpNotif bill now)
      :: (if bill.notifyUntilPaid then
            (List.range 12).map (fun j => mkRecurringNotif bill now (j + 1))
          else []) := by
  simp [scheduleBillReminderPlan, h, plan_recurring_eq]

theorem mem_recurring_ntype {bill : Bill} {now : DateTime} {n : Notif}
    (hn : n ∈ (List.range 12).map (fun j => mkRecurringNotif bill now (j + 1))) :
    n.ntype = "recurring" := by
  simp only [List.mem_map] at hn
  obtain ⟨j, _, rfl⟩ := hn
  rfl

theorem specRecurringSlots_eq_twelve (now : DateTime) : specRecurringSlots now = 12 := by
  unfold specRecurringSlots
  rw [List.filter_eq_self.mpr (fun j _ => isAfter_addHours_true now (2 * (j + 1)) (by omega))]
  rfl

-- ### C8

/-- C8: for every date `d` (with a calendar-valid month field) and every
frequency other than one-time, `getNextDueDate d f` is strictly later than
`d`; and `getNextDueDate d one-time = d`. -/
theorem c8_advance_strict_mono (d : DateTime) (f : Frequency)
    (h1 : 1 ≤ d.month) (h2 : d.month ≤ 12) :
    (f ≠ Frequency.oneTime → dlt d (getNextDueDate d f)) ∧
    getNextDueDate d Frequency.oneTime = d := by
  refine ⟨fun hf => ?_, rfl⟩
  cases f with
  | oneTime => exact absurd rfl hf
  | daily => exact dlt_addDays d 1 (by omega)
  | weekly => exact dlt_addDays d 7 (by omega)
  | biWeekly => exact dlt_addDays d 14 (by omega)
  | every3Weeks => exact dlt_addDays d 21 (by omega)
  | every4Weeks => exact dlt_addDays d 28 (by omega)
  | every5Weeks => exact dlt_addDays d 35 (by omega)
  | every6Weeks => exact dlt_addDays d 42 (by omega)
  | monthly => exact addMonths_dlt d 1 (by omega) h1 h2
  | every3Months => exact addMonths_dlt d 3 (by omega) h1 h2
  | every4Months => exact addMonths_dlt d 4 (by omega) h1 h2
  | every5Months => exact addMonths_dlt d 5 (by omega) h1 h2
  | every6Months => exact addMonths_dlt d 6 (by omega) h1 h2
  | annually => exact addMonths_dlt d 12 (by omega) h1 h2

/-- Witness for C8 at the clamping-relevant date 2025-01-31 with the monthly
frequency. -/
theorem c8_witness :
    dlt ⟨2025, 1, 31, 0⟩ (getNextDueDate ⟨2025, 1, 31, 0⟩ Frequency.monthly) :=
  (c8_advance_strict_mono ⟨2025, 1, 31, 0⟩ Frequency.monthly (by decide) (by decide)).1
    (by decide)

-- ### C9

/-- C9: running the full replan (`scheduleAllBills`: cancel everything
pending, then reschedule each unpaid bill's plan) twice in immediate
succession over an unchanged bill list yields the same final pending-id set
as running it once. -/
theorem c9_replan_idempotent (pending : List Notif) (bills : List Bill) (now : DateTime) :
    (scheduleAllBills (scheduleAllBills pending bills now) bills now).map (fun n => n.id)
      = (scheduleAllBills pending bills now).map (fun n => n.id) := rfl

-- ### C10

/-- C10: a paid bill is always reported `paid` (never `overdue`, whatever its
`nextDueDate`), and `overdue` is returned exactly for unpaid bills whose
`nextDueDate` is strictly before `now` and not on the current calendar day. -/
theorem c10_paid_never_overdue (bill : Bill) (now : DateTime) :
    (bill.isPaid = true → getBillStatus bill now = BillStatus.paid) ∧
    (getBillStatus bill now = BillStatus.overdue ↔
      bill.isPaid = false ∧ dlt bill.nextDueDate now ∧ ¬ sameDate bill.nextDueDate now) := by
  constructor
  · intro h
    simp [getBillStatus, h]
  · by_cases hp : bill.isPaid
    · simp [getBillStatus, hp]
    · by_cases hd : dlt bill.nextDueDate now <;>
        by_cases hs : sameDate bill.nextDueDate now <;>
          simp [getBillStatus, isBefore, isToday, hp, hd, hs]

/-- Witness for C10: the paid bill `c10Bill`, although due on 2024-12-01 and
now well past due, is reported `paid`. -/
theorem c10_witness : getBillStatus c10Bill c10Now = BillStatus.paid :=
  (c10_paid_never_overdue c10Bill c10Now).1 rfl

-- ### C4

/-- C4 counterexample: a bill due exactly at `now + 7` days (the week-window
endpoint, hence "on-or-before `now + windowLength`" as the claim requires, and
not on the current calendar day) is nevertheless excluded by
`filterBillsByDateRange`, because the source compares with a strict
`isBefore`. -/
theorem c4_counterexample :
    c4BillAtWindowEnd.nextDueDate = addDays c4Now 7 ∧
    ¬ sameDate c4BillAtWindowEnd.nextDueDate c4Now ∧
    filterBillsByDateRange [c4BillAtWindowEnd] View.week c4Now = [] := by decide

/-- C4 (amended): for the non-`all` views, `filterBillsByDateRange` keeps
exactly the bills whose `nextDueDate` is STRICTLY before `now + windowLength`
or on the current calendar day; in particular a bill due earlier today is
always kept, and, for the week view, a bill due in 8 days is excluded. -/
theorem c4_amended (bills : List Bill) (v : View) (now : DateTime) (b : Bill)
    (hv : v ≠ View.all) :
    (b ∈ filterBillsByDateRange bills v now ↔
       b ∈ bills ∧ (dlt b.nextDueDate (viewEndDate v now) ∨ sameDate b.nextDueDate now)) ∧
    (b ∈ bills → sameDate b.nextDueDate now → b ∈ filterBillsByDateRange bills v now) ∧
    (sameDate b.nextDueDate (addDays now 8) →
       b ∉ filterBillsByDateRange bills View.week now) := by
  have hchar : ∀ vv : View, vv ≠ View.all →
      (b ∈ filterBillsByDateRange bills vv now ↔
        b ∈ bills ∧ (dlt b.nextDueDate (viewEndDate vv now) ∨ sameDate b.nextDueDate now)) := by
    intro vv hvv
    unfold filterBillsByDateRange
    rw [if_neg hvv]
    simp [List.mem_filter, isBefore, isToday]
  refine ⟨hchar v hv, fun hb hs => (hchar v hv).mpr ⟨hb, Or.inr hs⟩, fun h8 hmem => ?_⟩
  obtain ⟨-, hor⟩ := (hchar View.week (by decide)).mp hmem
  have hsucc : ddlt (addDays now 7) (addDays now 8) := succDay_ddlt (addDays now 7)
  rcases hor with hlt | hsame
  · have hlt7 : dlt b.nextDueDate (addDays now 7) := hlt
    unfold dlt at hlt7
    unfold ddlt at hsucc
    unfold sameDate at h8
    omega
  · have hnow : ddlt now (addDays now 8) := addDays_ddlt now 8 (by omega)
    unfold ddlt at hnow
    unfold sameDate at h8 hsame
    omega

/-- Witness for C4 (amended): a bill due earlier today is kept by the week
view. -/
theorem c4_amended_witness :
    c4TodayBill ∈ filterBillsByDateRange [c4TodayBill] View.week c4Now :=
  (c4_amended [c4TodayBill] View.week c4Now c4TodayBill (by decide)).2.1
    (by decide) (by decide)

-- ### C3

/-- C3 counterexample: for `c3Bill` (due 2025-01-30 08:00, notification time
09:00) at `c3Now` = 2025-01-30 10:00, the target time (09:00 today) has
passed and lies on the current calendar day — so the claim requires the
"due today" message — yet the emitted catch-up instance takes the `OVERDUE`
branch (the source tests `isPast(dueDate)`, and the due timestamp 08:00 is
before `now`); the target is also not strictly before the start of today. -/
theorem c3_counterexample :
    scheduleBillReminderPlan c3Bill c3Now = [mkCatchUpNotif c3Bill c3Now] ∧
    (mkCatchUpNotif c3Bill c3Now).body = NotifBody.catchUpBody "Rent" 50 true ∧
    sameDate (parseNotificationTime c3Bill.notifHours c3Bill.notifMinutes c3Bill.nextDueDate)
      c3Now ∧
    ¬ dlt (parseNotificationTime c3Bill.notifHours c3Bill.notifMinutes c3Bill.nextDueDate)
      (specStartOfToday c3Now) := by decide

/-- C3 (amended): for every unpaid bill whose target time is not after `now`,
the plan contains exactly one suffix-0 (catch-up) instance, scheduled six
seconds after `now` (hence strictly after `now`), and its message takes the
"overdue" variant exactly when the bill's `nextDueDate` TIMESTAMP is strictly
before `now` (`isPast(dueDate)`), the "due today" variant otherwise — not the
claim's "target strictly before the start of the current day" test. -/
theorem c3_amended (bill : Bill) (now : DateTime)
    (hp : bill.isPaid = false)
    (ht : isAfter (parseNotificationTime bill.notifHours bill.notifMinutes bill.nextDueDate) now
            = false) :
    (scheduleBillReminderPlan bill now).filter (fun n => n.ntype == "main")
        = [mkCatchUpNotif bill now] ∧
    (mkCatchUpNotif bill now).fireAt = addMs now 6000 ∧
    dlt now (mkCatchUpNotif bill now).fireAt ∧
    ((mkCatchUpNotif bill now).body = NotifBody.catchUpBody bill.name bill.amount true ↔
       dlt bill.nextDueDate now) := by
  refine ⟨?_, rfl, dlt_addMs now 6000 (by norm_num), ?_⟩
  · rw [plan_eq_of_unpaid bill now hp, ht]
    rw [if_neg (by simp)]
    by_cases hu : bill.notifyUntilPaid
    · rw [if_pos hu]
      rw [List.filter_cons]
      rw [if_pos (by rfl)]
      rw [List.filter_eq_nil_iff.mpr (fun n hn => by rw [mem_recurring_ntype hn]; decide)]
    · rw [if_neg hu]
      rfl
  · simp [mkCatchUpNotif, isPast]

/-- Witness for C3 (amended) at the concrete `c3Bill`/`c3Now`. -/
theorem c3_amended_witness :
    (scheduleBillReminderPlan c3Bill c3Now).filter (fun n => n.ntype == "main")
      = [mkCatchUpNotif c3Bill c3Now] :=
  (c3_amended c3Bill c3Now rfl (by decide)).1

-- ### C6

/-- C6: for every unpaid bill with `notifyUntilPaid`, the plan's recurring
part is exactly the reminders for `k = 1..12` at `now + 2h·k` with sequence
index `k`, each (vacuously, since every slot lies strictly after `now`)
passing the strictly-after-`now` guard, and the recurring count equals
`min(12, number of 2-hour multiples strictly after now within the next
24 hours)`. -/
theorem c6_recurring_reminders (bill : Bill) (now : DateTime)
    (hp : bill.isPaid = false) (hn : bill.notifyUntilPaid = true) :
    (scheduleBillReminderPlan bill now).filter (fun n => n.ntype == "recurring")
        = (List.range 12).map (fun j => mkRecurringNotif bill now (j + 1)) ∧
    ((scheduleBillReminderPlan bill now).filter (fun n => n.ntype == "recurring")).length
        = min 12 (specRecurringSlots now) ∧
    (∀ j, j < 12 →
       (mkRecurringNotif bill now (j + 1)).interval = some (j + 1) ∧
       (mkRecurringNotif bill now (j + 1)).fireAt = addHours now (2 * (j + 1)) ∧
       isAfter (addHours now (2 * (j + 1))) now = true) := by
  have hfilter : (scheduleBillReminderPlan bill now).filter (fun n => n.ntype == "recurring")
      = (List.range 12).map (fun j => mkRecurringNotif bill now (j + 1)) := by
    rw [plan_eq_of_unpaid bill now hp, hn]
    rw [if_pos rfl, List.filter_cons]
    rw [if_neg (by split <;> (simp only [mkMainNotif, mkCatchUpNotif]; decide))]
    exact List.filter_eq_self.mpr (fun n hn2 => by rw [mem_recurring_ntype hn2]; decide)
  refine ⟨hfilter, ?_, fun j hj => ⟨rfl, rfl, isAfter_addHours_true now (2 * (j + 1)) (by omega)⟩⟩
  rw [hfilter, specRecurringSlots_eq_twelve]
  rfl

/-- Witness for C6 at the concrete `c6Bill`/`c6Now`. -/
theorem c6_witness :
    (scheduleBillReminderPlan c6Bill c6Now).filter (fun n => n.ntype == "recurring")
      = (List.range 12).map (fun j => mkRecurringNotif c6Bill c6Now (j + 1)) :=
  (c6_recurring_reminders c6Bill c6Now rfl rfl).1

-- ### C7

theorem foldl_add_eq_sum (l : List Nat) (a : Nat) :
    l.foldl (fun acc c => acc + c) a = a + l.sum := by
  induction l generalizing a with
  | nil => simp
  | cons x xs ih => simp [List.sum_cons, ih]; omega

theorem generateNotificationId_eq (s : String) (k : Nat) :
    generateNotificationId s k = (s.data.map Char.toNat).sum % 1000000 + k := by
  unfold generateNotificationId
  rw [foldl_add_eq_sum]
  simp

/-- C7: for every unpaid bill, the ids of its planned instances are exactly
`(sum of the character codes of the bill id) mod 1,000,000` for the
main/catch-up instance (suffix 0) and that value plus `k` for the `k`-th
recurring reminder; since this id list does not depend on the planning time,
two plans for the same bill always produce the same id set, so a
cancel-then-reschedule targets exactly the ids previously created. -/
theorem c7_notification_ids (bill : Bill) (now1 now2 : DateTime)
    (hp : bill.isPaid = false) :
    ((scheduleBillReminderPlan bill now1).map (fun n => n.id) =
       (if bill.notifyUntilPaid then
          ((bill.id.data.map Char.toNat).sum % 1000000)
            :: (List.range 12).map (fun k => (bill.id.data.map Char.toNat).sum % 1000000 + (k + 1))
        else [(bill.id.data.map Char.toNat).sum % 1000000])) ∧
    (scheduleBillReminderPlan bill now1).map (fun n => n.id) =
      (scheduleBillReminderPlan bill now2).map (fun n => n.id) := by
  have key : ∀ now : DateTime, (scheduleBillReminderPlan bill now).map (fun n => n.id) =
      (if bill.notifyUntilPaid then
         ((bill.id.data.map Char.toNat).sum % 1000000)
           :: (List.range 12).map (fun k => (bill.id.data.map Char.toNat).sum % 1000000 + (k + 1))
       else [(bill.id.data.map Char.toNat).sum % 1000000]) := by
    intro now
    rw [plan_eq_of_unpaid bill now hp]
    by_cases hu : bill.notifyUntilPaid
    · rw [if_pos hu, if_pos hu]
      rw [List.map_cons, List.map_map]
      congr 1
      · split <;> simp [mkMainNotif, mkCatchUpNotif, generateNotificationId_eq]
      · apply List.map_congr_left
        intro j _
        simp [mkRecurringNotif, Function.comp, generateNotificationId_eq]
    · rw [if_neg hu, if_neg hu]
      rw [List.map_cons, List.map_nil]
      congr 1
      split <;> simp [mkMainNotif, mkCatchUpNotif, generateNotificationId_eq]
  exact ⟨key now1, (key now1).trans (key now2).symm⟩

/-- Witness for C7: the id sets of two plans of `c6Bill` at different times
coincide. -/
theorem c7_witness :
    (scheduleBillReminderPlan c6Bill c6Now).map (fun n => n.id)
      = (scheduleBillReminderPlan c6Bill c7NowLater).map (fun n => n.id) :=
  (c7_notification_ids c6Bill c6Now c7NowLater rfl).2

-- ### C1

/-- C1 (code bug): the claim matches the spec's stated invariant, but
`markAsPaid` only runs `updateBill(id, { isPaid: true })` — it never calls
`getNextDueDate` (which no code in the repository calls).  Evaluating the
model: marking the recurring (weekly) bill `c1Bill` as paid succeeds, leaves
`isPaid = true`, and keeps `nextDueDate` unchanged, while the advanced date
the claim requires is a different (strictly later) date. -/
theorem c1_markAsPaid_code_bug :
    (markAsPaid envLocalOk c1Sys "b1").2 = OpResult.ok ∧
    (markAsPaid envLocalOk c1Sys "b1").1.memBills = [{ c1Bill with isPaid := true }] ∧
    ({ c1Bill with isPaid := true } : Bill).isPaid = true ∧
    ({ c1Bill with isPaid := true } : Bill).nextDueDate = c1Bill.nextDueDate ∧
    getNextDueDate c1Bill.nextDueDate Frequency.weekly ≠ c1Bill.nextDueDate := by decide

-- ### C2

/-- C2 counterexample: in a signed-in session whose remote write fails,
`updateSettings` swallows the failure (the operation resolves as `ok`) and the
in-memory settings are nevertheless updated — contradicting both halves of
the claim for the `updateSettings` mutation. -/
theorem c2_counterexample :
    (updateSettings envRemoteFail c2Sys c2Patch).2 = OpResult.ok ∧
    (updateSettings envRemoteFail c2Sys c2Patch).1.memSettings.currency = "EUR" ∧
    c2Sys.memSettings.currency = "USD" := by decide

/-- C2 (amended): in a signed-in session, a failing remote write makes
`addBill`, `updateBill`, `deleteBill` (and hence `markAsPaid` on an existing
bill) fail as a whole with the in-memory state untouched; `updateSettings`,
however, reports success on a failing remote write after having already
applied the in-memory update (and, signed out, memory is updated before the
local write, so the claim does not extend to the local backing store). -/
theorem c2_amended (env : Env) (s : Sys) (input : BillInput) (id : String)
    (p : BillPatch) (q : SettingsPatch)
    (hs : env.signedIn = true) (hf : env.remoteFails = true) :
    addBill env s input = (s, OpResult.failed) ∧
    updateBill env s id p = (s, OpResult.failed) ∧
    deleteBill env s id = (s, OpResult.failed) ∧
    (markAsPaid env s id).1 = s ∧
    ((s.memBills.find? (fun b => b.id == id)).isSome = true →
       (markAsPaid env s id).2 = OpResult.failed) ∧
    (updateSettings env s q).2 = OpResult.ok := by
  refine ⟨by simp [addBill, hs, hf], by simp [updateBill, hs, hf],
          by simp [deleteBill, hs, hf], ?_, ?_, by simp [updateSettings, hs, hf]⟩
  · unfold markAsPaid
    cases h : s.memBills.find? (fun b => b.id == id) with
    | none => rfl
    | some b => simp [updateBill, hs, hf]
  · intro hfound
    unfold markAsPaid
    cases h : s.memBills.find? (fun b => b.id == id) with
    | none => rw [h] at hfound; simp at hfound
    | some b => simp [updateBill, hs, hf]

/-- Witness for C2 (amended): `addBill` under `envRemoteFail` fails and
leaves the state unchanged. -/
theorem c2_amended_witness :
    addBill envRemoteFail c2Sys c2Input = (c2Sys, OpResult.failed) :=
  (c2_amended envRemoteFail c2Sys c2Input "x" {} {} rfl rfl).1

-- ### C5

/-- C5 counterexample: start from a state with zero local-only bills and an
empty remote store, but a local settings blob.  After the migration the local
settings blob is still present — the source removes the `localStorage` keys
only inside the non-empty-bills insert branch — so "local storage cleared of
bills and settings" fails for `N = 0`. -/
theorem c5_counterexample :
    c5Sys0.localBills = none ∧ c5Sys0.cloudBills = [] ∧
    (syncLocalDataToCloud "u1" false c5Sys0).localSettings = some defaultSettings := by decide

/-- C5 (amended): starting from a state with `N ≥ 1` local-only bills and an
empty remote store, one successful migration leaves the remote store holding
exactly `N` bills (appended, not overwritten) and local storage cleared of
bills and settings, and a second run of the migration for the same session is
the identity (in particular it inserts no additional bills). -/
theorem c5_migration_once (s : Sys) (uid : String) (bs : List Bill)
    (hb : s.localBills = some bs) (hne : bs ≠ []) (hc : s.cloudBills = []) :
    (syncLocalDataToCloud uid false s).cloudBills.length = bs.length ∧
    (syncLocalDataToCloud uid false s).localBills = none ∧
    (syncLocalDataToCloud uid false s).localSettings = none ∧
    syncLocalDataToCloud uid false (syncLocalDataToCloud uid false s)
      = syncLocalDataToCloud uid false s := by
  have hlen : 0 < bs.length := List.length_pos.mpr hne
  have hs1b : (syncSettingsStep uid s).localBills = some bs := by
    unfold syncSettingsStep
    cases h : s.localSettings <;> simp [hb]
  have hs1c : (syncSettingsStep uid s).cloudBills = [] := by
    unfold syncSettingsStep
    cases h : s.localSettings <;> simp [hc]
  have hrun : syncLocalDataToCloud uid false s =
      { syncSettingsStep uid s with
          cloudBills := (syncSettingsStep uid s).cloudBills ++
            bs.map (fun b => mkCloudRow uid "" s.memSettings.currency (inputOfBill b)),
          localBills := none,
          localSettings := none } := by
    unfold syncLocalDataToCloud syncBillsStep
    rw [hs1b]
    simp [hlen]
  refine ⟨?_, ?_, ?_, ?_⟩
  · rw [hrun]
    simp [hs1c]
  · rw [hrun]
  · rw [hrun]
  · rw [hrun]
    unfold syncLocalDataToCloud syncSettingsStep syncBillsStep
    simp

/-- Witness for C5 (amended): migrating `c5SysW` (three local bills, empty
remote store) yields exactly three remote bills. -/
theorem c5_migration_once_witness :
    (syncLocalDataToCloud "u1" false c5SysW).cloudBills.length = 3 :=
  (c5_migration_once c5SysW "u1" [c5BillA, c5BillB, c5BillC] rfl (by decide) rfl).1
